import Mathlib

/-!
Shallow embedding of the XML-backed module store in
src/common/lib/xmodule/xmodule/modulestore/xml.py.

The store loads course trees from XML, assigns a slug to every element that
lacks one, registers each constructed node in an in-memory index keyed by its
Location, and serves identity lookups. Mutation operations always fail: the
store is read-only.

Modelling conventions:
- Python strings-or-None become Option String.
- An XML text handed to process_xml is either well formed (an element with a
  tag, attributes and child texts) or malformed; etree.fromstring on a
  malformed text raises, which we model as a parse error result.
- Exceptions become Except results; methods that may mutate the receiver are
  state-passing functions returning the new state next to the result, and the
  state reached at the moment an exception propagates is returned with the
  error, matching the fact that Python mutations performed before a raise
  persist.
- XModuleDescriptor.load_from_xml and get_children are not under src/; per the
  spec they recursively parse child elements through the same system
  (process_xml), sharing one allocator per course load, so child construction
  is modelled as process_xml on each child text.
-/

/-- Text handed to process_xml: either a well-formed element (tag, attributes,
and the texts of its child elements, each re-parsed recursively by
process_xml) or text that is not well-formed XML, on which etree.fromstring
raises a parse error. -/
inductive XmlText where
  | malformed (raw : String)
  | elem (tag : String) (attrs : List (String × String)) (children : List XmlText)

/-- Composite identity key of a content node. Python fields may be None, hence
Option String. Category is the XML tag; revision defaults to none. -/
structure Location where
  org : Option String
  course : Option String
  category : Option String
  slug : Option String
  revision : Option String
deriving DecidableEq

/-- Modelled from the spec: Location.clean lives in xmodule/modulestore/ (not
under src/). The spec requires a pure, deterministic, idempotent function that
replaces characters unsafe for a key component; we keep alphanumerics,
underscore, dot and dash and replace every other character with an
underscore. -/
def Location.clean (value : String) : String :=
  String.mk (value.data.map
    (fun ch => if ch.isAlphanum || ch = '_' || ch = '.' || ch = '-' then ch else '_'))

/-- Errors surfaced by the store: the parse error raised on malformed XML
(carrying the offending text, which the code logs before re-raising), the
insufficiently-specified error raised by Location normalization when a
required field is missing, the lookup failure of get_item, and the read-only
rejection that every mutation method raises (NotImplementedError with this
message in the code; the spec names this taxonomy entry
UnsupportedOperationError). -/
inductive StoreErr where
  | parseError (raw : String)
  | insufficientSpecification (loc : Location)
  | itemNotFound (loc : Location)
  | unsupportedOperation (msg : String)
deriving DecidableEq

/-- Modelled from the spec: the Location class (not under src/) rejects
under-specified inputs. Spec 4.1: constructing a Location from an input with
any field missing other than revision must signal an insufficiently-specified
error distinct from not-found; the xml.py docstring (lines 116-118) states the
same for get_item, whose line 122 runs this normalization. -/
def Location.wellSpecified (loc : Location) : Bool :=
  loc.org.isSome && loc.course.isSome && loc.category.isSome && loc.slug.isSome

/-- A constructed content node: its Location, tag, the attributes of its
element (with the allocated slug set on it, mirroring xml_data.set), and the
raw child texts kept for lazy construction via get_children. -/
structure XModuleDescriptor where
  location : Location
  tag : String
  attrs : List (String × String)
  childrenSrc : List XmlText

/-- Attribute lookup, as xml_data.get: the value of the first binding of the
key, or none. -/
def attrGet : List (String × String) → String → Option String
  | [], _ => none
  | (k, v) :: rest, key => if k = key then some v else attrGet rest key

/-- Attribute update, as xml_data.set: replace the binding in place, or append
it. -/
def setAttr : List (String × String) → String → String → List (String × String)
  | [], key, val => [(key, val)]
  | (k, v) :: rest, key, val =>
    if k = key then (key, val) :: rest else (k, v) :: setAttr rest key val

/-- Candidate slug for an element without an explicit slug attribute
(xml.py lines 79-83): a nonempty name attribute (Python truthiness: absent and
empty both fail the test) yields Location.clean of the name and leaves the
unnamed counter alone; otherwise the counter is incremented and the candidate
is tag_counter. Returns the candidate and the new counter. -/
def candidateSlug (tag : String) (nameAttr : Option String) (unnamedModules : Nat) :
    String × Nat :=
  if nameAttr.getD "" ≠ "" then
    (Location.clean (nameAttr.getD ""), unnamedModules)
  else
    (tag ++ "_" ++ toString (unnamedModules + 1), unnamedModules + 1)

/-- Slug allocation of process_xml (xml.py lines 78-90) over the allocator
state (unnamed_modules counter, used_slugs set, here a list). An explicit slug
attribute skips the whole block: it is returned unchanged and neither the
counter nor the used set is touched. Otherwise the candidate is computed; if
it is already used, the counter is incremented once and candidate_counter is
taken (a single if in the code, not a loop); the chosen slug is added to the
used set. Returns (slug, counter, used set). -/
def allocateSlug (tag : String) (slugAttr nameAttr : Option String)
    (unnamedModules : Nat) (usedSlugs : List String) : String × Nat × List String :=
  match slugAttr with
  | some s => (s, unnamedModules, usedSlugs)
  | none =>
    let c := candidateSlug tag nameAttr unnamedModules
    if c.1 ∈ usedSlugs then
      (c.1 ++ "_" ++ toString (c.2 + 1), c.2 + 1,
        (c.1 ++ "_" ++ toString (c.2 + 1)) :: usedSlugs)
    else
      (c.1, c.2, c.1 :: usedSlugs)

/-- State of one course load: the ImportSystem allocator fields
(unnamed_modules, used_slugs), the modules index of the enclosing store, and a
ghost trace recording, newest first, every node registered by line 93
(modulestore.modules[module.location] = module). The trace influences nothing;
it only makes "the nodes constructed during this load" speakable. -/
structure ImportState where
  unnamed_modules : Nat
  used_slugs : List String
  modules : List (Location × XModuleDescriptor)
  trace : List XModuleDescriptor

/-- Index lookup: the most recent binding of the Location, as a dict read. -/
def lookupMod : List (Location × XModuleDescriptor) → Location → Option XModuleDescriptor
  | [], _ => none
  | (l, m) :: rest, loc => if l = loc then some m else lookupMod rest loc

/-- Index write: dict assignment; the new binding shadows any older one for
the same Location (last write wins). -/
def indexPut (ms : List (Location × XModuleDescriptor)) (loc : Location) (m : XModuleDescriptor) :
    List (Location × XModuleDescriptor) :=
  (loc, m) :: ms

mutual
/-- process_xml (xml.py lines 72-97): parse the text (malformed text raises the
logged parse error), allocate a slug if the element has none and set it on the
element, construct the node with Location (org, course, tag, slug), register it
in the index (line 93), and, when eager, force the children (line 95-96) by
parsing every child text through this same function with the shared allocator;
the first child failure propagates, keeping all registrations made so far. -/
def processXml (eager : Bool) (org course : Option String) :
    XmlText → ImportState → ImportState × Except StoreErr XModuleDescriptor
  | .malformed raw, st => (st, .error (.parseError raw))
  | .elem tag attrs children, st =>
    let slugAttr := attrGet attrs "slug"
    let res := allocateSlug tag slugAttr (attrGet attrs "name")
      st.unnamed_modules st.used_slugs
    let attrsOut := if slugAttr.isSome then attrs else setAttr attrs "slug" res.1
    let loc : Location :=
      { org := org, course := course, category := some tag,
        slug := some res.1, revision := none }
    let m : XModuleDescriptor := { location := loc, tag := tag, attrs := attrsOut, childrenSrc := children }
    let st1 : ImportState :=
      { unnamed_modules := res.2.1, used_slugs := res.2.2,
        modules := indexPut st.modules loc m, trace := m :: st.trace }
    if eager then
      match processChildren eager org course children st1 with
      | (st2, .error e) => (st2, .error e)
      | (st2, .ok _) => (st2, .ok m)
    else
      (st1, .ok m)

/-- Sequential parsing of child texts (the loop inside get_children): each
child goes through process_xml with the state left by the previous one; the
first failure propagates with the state reached at that point. -/
def processChildren (eager : Bool) (org course : Option String) :
    List XmlText → ImportState → ImportState × Except StoreErr (List XModuleDescriptor)
  | [], st => (st, .ok [])
  | x :: xs, st =>
    match processXml eager org course x st with
    | (st1, .error e) => (st1, .error e)
    | (st1, .ok m) =>
      match processChildren eager org course xs st1 with
      | (st2, .error e) => (st2, .error e)
      | (st2, .ok ms) => (st2, .ok (m :: ms))
end

/-- get_children of a constructed node (modelled from the spec, the descriptor
class is not under src/): parse the stored child texts through the system
process_xml, sharing the allocator and index state of the course load. -/
def get_children (eager : Bool) (org course : Option String) (m : XModuleDescriptor)
    (st : ImportState) : ImportState × Except StoreErr (List XModuleDescriptor) :=
  processChildren eager org course m.childrenSrc st

/-- The XML-backed store (xml.py lines 20-49): the eager flag, construction
options, the modules index, and the courses list (initialised empty and never
appended to). -/
structure XMLModuleStore where
  eager : Bool
  data_dir : String
  default_class : Option String
  modules : List (Location × XModuleDescriptor)
  courses : List XModuleDescriptor

/-- load_course (xml.py lines 51-108): parse course.xml (a malformed document
raises before anything else happens), read the org and course attributes of
the root, create a fresh ImportSystem (counter zero, empty used set) and run
process_xml on the serialised root. The store keeps whatever the load
registered, also when the load fails partway. -/
def load_course (store : XMLModuleStore) (courseXml : XmlText) :
    XMLModuleStore × Except StoreErr XModuleDescriptor :=
  match courseXml with
  | .malformed raw => (store, .error (.parseError raw))
  | .elem tag attrs children =>
    let st0 : ImportState :=
      { unnamed_modules := 0, used_slugs := [], modules := store.modules, trace := [] }
    let r := processXml store.eager (attrGet attrs "org") (attrGet attrs "course")
      (.elem tag attrs children) st0
    ({ store with modules := r.1.modules }, r.2)

/-- get_item (xml.py lines 110-126): line 122 first normalizes the argument,
Location(location), which raises the insufficiently-specified error when a
required field is missing (modelled from spec 4.1, the Location class is not
under src/; the docstring at lines 116-118 documents exactly this); then a
dict read of the index, where a missing key raises ItemNotFoundError. The
method performs no write, which the state-passing signature makes explicit. -/
def get_item (store : XMLModuleStore) (location : Location) :
    XMLModuleStore × Except StoreErr XModuleDescriptor :=
  (store,
    if location.wellSpecified then
      match lookupMod store.modules location with
      | some m => .ok m
      | none => .error (.itemNotFound location)
    else
      .error (.insufficientSpecification location))

/-- create_item (xml.py line 135): always raises the read-only error. -/
def create_item (store : XMLModuleStore) (location : Location) :
    XMLModuleStore × Except StoreErr Unit :=
  (store, .error (.unsupportedOperation "XMLModuleStores are read-only"))

/-- update_item (xml.py line 138): always raises the read-only error. -/
def update_item {α : Type} (store : XMLModuleStore) (location : Location) (data : α) :
    XMLModuleStore × Except StoreErr Unit :=
  (store, .error (.unsupportedOperation "XMLModuleStores are read-only"))

/-- update_children (xml.py line 148): always raises the read-only error. -/
def update_children {α : Type} (store : XMLModuleStore) (location : Location)
    (children : α) : XMLModuleStore × Except StoreErr Unit :=
  (store, .error (.unsupportedOperation "XMLModuleStores are read-only"))

/-- update_metadata (xml.py line 158): always raises the read-only error. -/
def update_metadata {α : Type} (store : XMLModuleStore) (location : Location)
    (metadata : α) : XMLModuleStore × Except StoreErr Unit :=
  (store, .error (.unsupportedOperation "XMLModuleStores are read-only"))

/-- Projection of a result to its error, if any. -/
def resultErr {α : Type} : Except StoreErr α → Option StoreErr
  | .error e => some e
  | .ok _ => none

/-- One allocation request as the allocator sees an element: its tag and its
slug and name attributes. -/
structure SlugRequest where
  tag : String
  slugAttr : Option String
  nameAttr : Option String

/-- Slugs emitted by the allocator, in order, for the elements of a request
sequence that carry no explicit slug attribute (the allocator chooses a slug
exactly for those). -/
def allocNonExplicitSlugs : Nat → List String → List SlugRequest → List String
  | _, _, [] => []
  | n, used, r :: rs =>
    match r.slugAttr with
    | some _ =>
      allocNonExplicitSlugs (allocateSlug r.tag r.slugAttr r.nameAttr n used).2.1
        (allocateSlug r.tag r.slugAttr r.nameAttr n used).2.2 rs
    | none =>
      (allocateSlug r.tag r.slugAttr r.nameAttr n used).1 ::
        allocNonExplicitSlugs (allocateSlug r.tag r.slugAttr r.nameAttr n used).2.1
          (allocateSlug r.tag r.slugAttr r.nameAttr n used).2.2 rs

/-- Decidable check that every allocator choice for an element without an
explicit slug is fresh: absent from the used set at the moment it is chosen. -/
def allocAllFresh : Nat → List String → List SlugRequest → Bool
  | _, _, [] => true
  | n, used, r :: rs =>
    (r.slugAttr.isSome ||
        !decide ((allocateSlug r.tag r.slugAttr r.nameAttr n used).1 ∈ used)) &&
      allocAllFresh (allocateSlug r.tag r.slugAttr r.nameAttr n used).2.1
        (allocateSlug r.tag r.slugAttr r.nameAttr n used).2.2 rs

/-- Invariant tying the ghost trace to the index: every node registered so far
has an entry at its Location. -/
def traceIndexed (st : ImportState) : Prop :=
  ∀ m ∈ st.trace, (lookupMod st.modules m.location).isSome = true

/- Concrete inputs used by the claim theorems. -/

/-- Course load whose children both carry the explicit slug "foo": two
distinct problem nodes (their name attributes differ) of one load. -/
def dupSlugLoad : ImportState × Except StoreErr XModuleDescriptor :=
  processXml true (some "o") (some "c")
    (.elem "course" [("org", "o"), ("course", "c"), ("slug", "root")]
      [.elem "problem" [("slug", "foo"), ("name", "A")] [],
       .elem "problem" [("slug", "foo"), ("name", "B")] []])
    { unnamed_modules := 0, used_slugs := [], modules := [], trace := [] }

/-- Request sequence with name attributes x_1, x, x: the third allocation
collides on x, is disambiguated once to x_1, and still collides. -/
def collisionReqs : List SlugRequest :=
  [{ tag := "problem", slugAttr := none, nameAttr := some "x_1" },
   { tag := "problem", slugAttr := none, nameAttr := some "x" },
   { tag := "problem", slugAttr := none, nameAttr := some "x" }]

/-- Store with the given eager flag, data directory and index, no default
class and an empty courses list (as left by the constructor). -/
def mkStore (eagerFlag : Bool) (dir : String)
    (ms : List (Location × XModuleDescriptor)) : XMLModuleStore :=
  { eager := eagerFlag, data_dir := dir, default_class := none,
    modules := ms, courses := [] }

/-- An eager store with an empty index. -/
def emptyEagerStore : XMLModuleStore :=
  { eager := true, data_dir := "data", default_class := none, modules := [], courses := [] }

/-- A lazy store with an empty index. -/
def emptyLazyStore : XMLModuleStore :=
  { eager := false, data_dir := "data", default_class := none, modules := [], courses := [] }

/-- Course whose root parses but whose only child text is malformed. -/
def badChildCourse : XmlText :=
  .elem "course" [("org", "o"), ("course", "c"), ("slug", "root")]
    [.malformed "<chapter"]

/-- Explicitly slugged element used for the explicit-slug claims. -/
def fooProblemRun : ImportState × Except StoreErr XModuleDescriptor :=
  processXml false (some "o") (some "c") (.elem "problem" [("slug", "foo")] [])
    { unnamed_modules := 0, used_slugs := [], modules := [], trace := [] }

/-- Course load with two children that carry the same explicit slug "dup". -/
def dupLookupLoad : ImportState × Except StoreErr XModuleDescriptor :=
  processXml true (some "o") (some "c")
    (.elem "course" [("org", "o"), ("course", "c"), ("slug", "root")]
      [.elem "problem" [("slug", "dup"), ("name", "A")] [],
       .elem "problem" [("slug", "dup"), ("name", "B")] []])
    { unnamed_modules := 0, used_slugs := [], modules := [], trace := [] }

/-- Location of the problem nodes of dupLookupLoad. -/
def dupLoc : Location :=
  { org := some "o", course := some "c", category := some "problem",
    slug := some "dup", revision := none }

/-- Three-level course: course, chapter, html grandchild, all explicitly
slugged. -/
def deepCourse : XmlText :=
  .elem "course" [("org", "o"), ("course", "c"), ("slug", "root")]
    [.elem "chapter" [("slug", "ch")]
      [.elem "html" [("slug", "kid")] []]]

/-- Location of the html grandchild of deepCourse. -/
def kidLoc : Location :=
  { org := some "o", course := some "c", category := some "html",
    slug := some "kid", revision := none }

/-- Location used by the one-entry witness store. -/
def wLoc : Location :=
  { org := some "o", course := some "c", category := some "problem",
    slug := some "p1", revision := none }

/-- Node registered in the one-entry witness store. -/
def wMod : XModuleDescriptor :=
  { location := wLoc, tag := "problem", attrs := [("slug", "p1")], childrenSrc := [] }

/-- One-entry store holding wMod at wLoc. -/
def wStore : XMLModuleStore := mkStore false "data" [(wLoc, wMod)]

/-- A well-specified Location never registered in wStore. -/
def wMissingLoc : Location :=
  { org := some "o", course := some "c", category := some "html",
    slug := some "nope", revision := none }

/-- An under-specified Location: its org field is missing. -/
def wUnderLoc : Location :=
  { org := none, course := some "c", category := some "problem",
    slug := some "p1", revision := none }

/-- Two unnamed, unslugged html siblings on a fresh allocator. -/
def twoHtmlRun : ImportState × Except StoreErr (List XModuleDescriptor) :=
  processChildren false (some "o") (some "c")
    [.elem "html" [] [], .elem "html" [] []]
    { unnamed_modules := 0, used_slugs := [], modules := [], trace := [] }

/- Helper lemmas. -/

/-- An element with an explicit slug attribute leaves the allocator state
untouched and gets the attribute value back. -/
theorem allocateSlug_some (tag s : String) (nameAttr : Option String)
    (n : Nat) (used : List String) :
    allocateSlug tag (some s) nameAttr n used = (s, n, used) := rfl

/-- Without an explicit slug, the used set after allocation is exactly the
chosen slug consed onto the previous used set. -/
theorem allocateSlug_none_used (tag : String) (nameAttr : Option String)
    (n : Nat) (used : List String) :
    (allocateSlug tag none nameAttr n used).2.2 =
      (allocateSlug tag none nameAttr n used).1 :: used := by
  by_cases hc : (candidateSlug tag nameAttr n).1 ∈ used <;>
    simp [allocateSlug, hc]

/-- Freshness of every non-explicit choice forces the emitted non-explicit
slugs to be pairwise distinct and disjoint from the starting used set. -/
theorem allocRun_fresh_nodup (reqs : List SlugRequest) :
    ∀ (n : Nat) (used : List String), allocAllFresh n used reqs = true →
      (allocNonExplicitSlugs n used reqs).Nodup ∧
        ∀ s ∈ allocNonExplicitSlugs n used reqs, s ∉ used := by
  induction reqs with
  | nil => intro n used _; simp [allocNonExplicitSlugs]
  | cons r rs ih =>
    intro n used hfresh
    rw [allocAllFresh, Bool.and_eq_true] at hfresh
    obtain ⟨h1, h2⟩ := hfresh
    cases hr : r.slugAttr with
    | some s =>
      rw [hr, allocateSlug_some] at h2
      simp only [allocNonExplicitSlugs, hr, allocateSlug_some]
      exact ih n used h2
    | none =>
      have hA := allocateSlug_none_used r.tag r.nameAttr n used
      have hfresh1 : (allocateSlug r.tag none r.nameAttr n used).1 ∉ used := by
        rw [hr] at h1
        simpa using h1
      rw [hr] at h2
      rw [hA] at h2
      obtain ⟨hnd, hmem⟩ := ih _ _ h2
      simp only [allocNonExplicitSlugs, hr, hA]
      refine ⟨List.nodup_cons.mpr ⟨?_, hnd⟩, ?_⟩
      · intro hc
        exact (hmem _ hc) (List.mem_cons_self _ _)
      · intro s hs
        rcases List.mem_cons.mp hs with h | h
        · subst h
          exact hfresh1
        · exact fun hu => (hmem s h) (List.mem_cons_of_mem _ hu)

/-- Writing a binding makes it retrievable. -/
theorem lookupMod_indexPut_self (ms : List (Location × XModuleDescriptor)) (loc : Location) (m : XModuleDescriptor) :
    lookupMod (indexPut ms loc m) loc = some m := by
  simp [indexPut, lookupMod]

/-- Writing a binding keeps every Location that already had an entry
resolvable. -/
theorem lookupMod_indexPut_isSome (ms : List (Location × XModuleDescriptor)) (loc l : Location)
    (m : XModuleDescriptor) (h : (lookupMod ms l).isSome = true) :
    (lookupMod (indexPut ms loc m) l).isSome = true := by
  rw [indexPut, lookupMod]
  split
  · rfl
  · exact h

/-- Registering a node (line 93) preserves the trace-index invariant: the new
node resolves to its fresh binding and every older binding stays resolvable. -/
theorem traceIndexed_register (st : ImportState) (count : Nat) (used : List String)
    (m : XModuleDescriptor) (h : traceIndexed st) :
    traceIndexed
      { unnamed_modules := count, used_slugs := used,
        modules := indexPut st.modules m.location m, trace := m :: st.trace } := by
  intro m' hm'
  rcases List.mem_cons.mp hm' with h1 | h1
  · subst h1
    show (lookupMod (indexPut st.modules m'.location m') m'.location).isSome = true
    rw [lookupMod_indexPut_self]
    rfl
  · exact lookupMod_indexPut_isSome _ _ _ _ (h m' h1)

/-- Every node registered during parsing stays resolvable in the index, in
every mode and also when the run ends in an error: the trace-index invariant
is preserved by process_xml and by child processing. -/
theorem processXml_traceIndexed (eager : Bool) (org course : Option String) :
    (∀ (x : XmlText) (st : ImportState), traceIndexed st →
        traceIndexed (processXml eager org course x st).1) ∧
      (∀ (xs : List XmlText) (st : ImportState), traceIndexed st →
        traceIndexed (processChildren eager org course xs st).1) := by
  refine processXml.mutual_induct eager org course
    (fun x st => traceIndexed st → traceIndexed (processXml eager org course x st).1)
    (fun xs st => traceIndexed st → traceIndexed (processChildren eager org course xs st).1)
    ?_ ?_ ?_ ?_ ?_ ?_ ?_ ?_
  · intro raw st h
    exact h
  · intro tag attrs children st
    intro slugAttr res attrsOut loc m st1 heager st2 e heq ih
    intro h
    subst heager
    have hcomp : processXml true org course (XmlText.elem tag attrs children) st
        = (match processChildren true org course children st1 with
           | (s2, Except.error err) => (s2, Except.error err)
           | (s2, Except.ok _) => (s2, Except.ok m)) := rfl
    have h2 := ih (traceIndexed_register st res.2.1 res.2.2 m h)
    rw [heq] at h2
    rw [hcomp, heq]
    exact h2
  · intro tag attrs children st
    intro slugAttr res attrsOut loc m st1 heager st2 ms heq ih
    intro h
    subst heager
    have hcomp : processXml true org course (XmlText.elem tag attrs children) st
        = (match processChildren true org course children st1 with
           | (s2, Except.error err) => (s2, Except.error err)
           | (s2, Except.ok _) => (s2, Except.ok m)) := rfl
    have h2 := ih (traceIndexed_register st res.2.1 res.2.2 m h)
    rw [heq] at h2
    rw [hcomp, heq]
    exact h2
  · intro tag attrs children st hne h
    have heager : eager = false := by
      revert hne
      cases eager <;> simp
    subst heager
    exact traceIndexed_register st _ _ _ h
  · intro st h
    exact h
  · intro x xs st st1 e heq ih h
    have hcomp : processChildren eager org course (x :: xs) st
        = (match processXml eager org course x st with
           | (s1, Except.error err) => (s1, Except.error err)
           | (s1, Except.ok mm) =>
             match processChildren eager org course xs s1 with
             | (s2, Except.error err) => (s2, Except.error err)
             | (s2, Except.ok ms) => (s2, Except.ok (mm :: ms))) := rfl
    have h1 := ih h
    rw [heq] at h1
    simp only [hcomp, heq]
    exact h1
  · intro x xs st st1 m heq st2 e heq2 ih1 ih2 h
    have hcomp : processChildren eager org course (x :: xs) st
        = (match processXml eager org course x st with
           | (s1, Except.error err) => (s1, Except.error err)
           | (s1, Except.ok mm) =>
             match processChildren eager org course xs s1 with
             | (s2, Except.error err) => (s2, Except.error err)
             | (s2, Except.ok ms) => (s2, Except.ok (mm :: ms))) := rfl
    have h1 := ih1 h
    rw [heq] at h1
    have h2 := ih2 h1
    rw [heq2] at h2
    simp only [hcomp, heq, heq2]
    exact h2
  · intro x xs st st1 m heq st2 ms heq2 ih1 ih2 h
    have hcomp : processChildren eager org course (x :: xs) st
        = (match processXml eager org course x st with
           | (s1, Except.error err) => (s1, Except.error err)
           | (s1, Except.ok mm) =>
             match processChildren eager org course xs s1 with
             | (s2, Except.error err) => (s2, Except.error err)
             | (s2, Except.ok ms2) => (s2, Except.ok (mm :: ms2))) := rfl
    have h1 := ih1 h
    rw [heq] at h1
    have h2 := ih2 h1
    rw [heq2] at h2
    simp only [hcomp, heq, heq2]
    exact h2

/-- C1 counterexample: in one eager course load whose two problem children
both carry the explicit slug attribute value "foo", the load registers two
distinct nodes (their name attributes differ) that share organization, course
and category yet have equal slugs, so the slugs of distinct parsed nodes of
one load are not pairwise distinct. -/
theorem slug_uniqueness_cex :
    dupSlugLoad.1.trace.map
        (fun m => (m.location.category, m.location.slug, attrGet m.attrs "name")) =
      [(some "problem", some "foo", some "B"),
       (some "problem", some "foo", some "A"),
       (some "course", some "root", none)] := by decide

/-- C1 (amended): within one course load, the slugs allocated to elements
without an explicit slug attribute are pairwise distinct, provided every such
chosen slug is absent from the used set at the moment it is chosen; nodes with
explicit slug attributes are excluded (the code neither checks nor records
them), and the freshness proviso is needed because the collision handler runs
only once (see C4). -/
theorem slug_uniqueness_amended (reqs : List SlugRequest)
    (hfresh : allocAllFresh 0 [] reqs = true) :
    (allocNonExplicitSlugs 0 [] reqs).Nodup :=
  (allocRun_fresh_nodup reqs 0 [] hfresh).1

/-- Witness for C1 (amended) at a concrete three-element load. -/
theorem slug_uniqueness_amended_witness :
    allocAllFresh 0 []
        [{ tag := "html", slugAttr := none, nameAttr := none },
         { tag := "problem", slugAttr := none, nameAttr := some "intro" },
         { tag := "html", slugAttr := none, nameAttr := none }] = true ∧
      (allocNonExplicitSlugs 0 []
        [{ tag := "html", slugAttr := none, nameAttr := none },
         { tag := "problem", slugAttr := none, nameAttr := some "intro" },
         { tag := "html", slugAttr := none, nameAttr := none }]).Nodup :=
  ⟨by decide, slug_uniqueness_amended
    [{ tag := "html", slugAttr := none, nameAttr := none },
     { tag := "problem", slugAttr := none, nameAttr := some "intro" },
     { tag := "html", slugAttr := none, nameAttr := none }] (by decide)⟩

/-- C2 (amended): text that is not well-formed XML makes process_xml raise the
parse error without registering anything (the import state, index included, is
returned untouched), and a course whose course.xml document itself is
malformed leaves the whole store unchanged. Nodes of the course registered
before a descendant fails are, however, kept (see the counterexample). -/
theorem malformed_xml_no_registration (eager : Bool) (org course : Option String)
    (raw : String) (st : ImportState) (store : XMLModuleStore) :
    processXml eager org course (.malformed raw) st = (st, .error (.parseError raw)) ∧
      load_course store (.malformed raw) = (store, .error (.parseError raw)) :=
  ⟨rfl, rfl⟩

/-- C2 counterexample: an eager load of a course whose root parses but whose
only child text is malformed raises the parse error, yet afterwards the index
of the store (which started empty) holds the root node produced by this very
load: the failed load did register a node for that course. -/
theorem malformed_xml_cex :
    resultErr (load_course emptyEagerStore badChildCourse).2 =
        some (.parseError "<chapter") ∧
      (lookupMod (load_course emptyEagerStore badChildCourse).1.modules
        { org := some "o", course := some "c", category := some "course",
          slug := some "root", revision := none }).isSome = true := by decide

/-- C3 counterexample: the node built from an element carrying the explicit
slug attribute "foo" keeps Location.slug "foo", but the allocator's used-slug
set stays empty afterwards: the explicit value is not recorded as used. -/
theorem explicit_slug_not_recorded_cex :
    (fooProblemRun.2.toOption.map (fun m => m.location.slug)) = some (some "foo") ∧
      fooProblemRun.1.used_slugs = [] := by decide

/-- C3 (amended): an element with an explicit slug attribute yields a node
whose Location.slug is exactly that value, and the allocator state is left
completely unchanged: the counter is untouched and the value is NOT added to
the used set (only the registration of the node itself changes the state). -/
theorem explicit_slug_preserved (org course : Option String) (tag : String)
    (attrs : List (String × String)) (children : List XmlText) (st : ImportState)
    (s : String) (h : attrGet attrs "slug" = some s) :
    ∃ m, processXml false org course (.elem tag attrs children) st =
        ({ st with modules := indexPut st.modules m.location m,
                   trace := m :: st.trace }, .ok m) ∧
      m.location.slug = some s := by
  refine ⟨{ location := { org := org, course := course, category := some tag,
                          slug := some s, revision := none },
            tag := tag, attrs := attrs, childrenSrc := children }, ?_, rfl⟩
  simp [processXml, h, allocateSlug]

/-- Witness for C3 (amended) at a concrete explicitly slugged element. -/
theorem explicit_slug_preserved_witness :
    attrGet [("slug", "foo")] "slug" = some "foo" ∧
      ∃ m, processXml false (some "o") (some "c")
          (.elem "problem" [("slug", "foo")] [])
          { unnamed_modules := 0, used_slugs := [], modules := [], trace := [] } =
          ({ unnamed_modules := 0, used_slugs := [],
             modules := indexPut [] m.location m, trace := [m] }, .ok m) ∧
        m.location.slug = some "foo" :=
  ⟨rfl, explicit_slug_preserved (some "o") (some "c") "problem" [("slug", "foo")] []
    { unnamed_modules := 0, used_slugs := [], modules := [], trace := [] } "foo" rfl⟩

/-- C4: the collision handler appends the counter only once (an if, not a
loop), so the slug finally emitted can itself still be in the used set. On the
requests named x_1, x, x the three allocations emit x_1, x, x_1: the third
choice x_1 is a member of the used set at the moment it is chosen and
duplicates the first emission. -/
theorem slug_collision_single_append :
    allocNonExplicitSlugs 0 [] collisionReqs = ["x_1", "x", "x_1"] ∧
      (allocateSlug "problem" none (some "x") 0 ["x", "x_1"]).1 = "x_1" ∧
      "x_1" ∈ ["x", "x_1"] := by decide

/-- C5 counterexample: one eager load constructs two distinct problem nodes
(name attributes A and B) at the same Location (both with explicit slug
"dup"); get_item at that Location returns the node named B, so it does not
return the node that was constructed and registered for the element named A,
although that element was constructed during the load. -/
theorem lookup_roundtrip_cex :
    dupLookupLoad.1.trace.map (fun m => (m.location.slug, attrGet m.attrs "name")) =
        [(some "dup", some "B"), (some "dup", some "A"), (some "root", none)] ∧
      ((get_item (mkStore true "data" dupLookupLoad.1.modules) dupLoc).2.toOption.map
          (fun m => attrGet m.attrs "name")) = some (some "B") := by decide

/-- C5 (amended): a process_xml call registers the node it constructs, which
is immediately retrievable at its Location; on a well-specified Location
get_item returns the most recently registered node (the exact node of an
element whenever no later element of a load was registered at the same
Location) and raises ItemNotFoundError when the Location holds no entry; on an
under-specified Location get_item raises the insufficiently-specified error
instead. -/
theorem lookup_roundtrip_amended :
    (∀ (org course : Option String) (tag : String) (attrs : List (String × String))
        (children : List XmlText) (st : ImportState),
      ∃ st1 m, processXml false org course (.elem tag attrs children) st = (st1, .ok m) ∧
        lookupMod st1.modules m.location = some m) ∧
      (∀ (store : XMLModuleStore) (loc : Location) (m : XModuleDescriptor),
        loc.wellSpecified = true → lookupMod store.modules loc = some m →
          (get_item store loc).2 = .ok m) ∧
      (∀ (store : XMLModuleStore) (loc : Location),
        loc.wellSpecified = true → lookupMod store.modules loc = none →
          (get_item store loc).2 = .error (.itemNotFound loc)) ∧
      (∀ (store : XMLModuleStore) (loc : Location),
        loc.wellSpecified = false →
          (get_item store loc).2 = .error (.insufficientSpecification loc)) := by
  refine ⟨?_, ?_, ?_, ?_⟩
  · intro org course tag attrs children st
    refine ⟨_, _, rfl, ?_⟩
    exact lookupMod_indexPut_self _ _ _
  · intro store loc m hw h
    simp [get_item, hw, h]
  · intro store loc hw h
    simp [get_item, hw, h]
  · intro store loc hw
    simp [get_item, hw]

/-- Witness for C5 (amended) on a one-entry store, exercising the found,
not-found and under-specified branches. -/
theorem lookup_roundtrip_amended_witness :
    (get_item wStore wLoc).2 = .ok wMod ∧
      (get_item wStore wMissingLoc).2 = .error (.itemNotFound wMissingLoc) ∧
      (get_item wStore wUnderLoc).2 = .error (.insufficientSpecification wUnderLoc) :=
  ⟨lookup_roundtrip_amended.2.1 wStore wLoc wMod rfl rfl,
    lookup_roundtrip_amended.2.2.1 wStore wMissingLoc rfl rfl,
    lookup_roundtrip_amended.2.2.2 wStore wUnderLoc rfl⟩

/-- C6: every mutation call (create_item, update_item, update_children,
update_metadata), for every argument value, raises the read-only store error
and returns the store unchanged, every field included. -/
theorem read_only_enforcement {α β γ : Type} (store : XMLModuleStore) (loc : Location)
    (data : α) (childrenArg : β) (metadataArg : γ) :
    create_item store loc =
        (store, .error (.unsupportedOperation "XMLModuleStores are read-only")) ∧
      update_item store loc data =
        (store, .error (.unsupportedOperation "XMLModuleStores are read-only")) ∧
      update_children store loc childrenArg =
        (store, .error (.unsupportedOperation "XMLModuleStores are read-only")) ∧
      update_metadata store loc metadataArg =
        (store, .error (.unsupportedOperation "XMLModuleStores are read-only")) :=
  ⟨rfl, rfl, rfl, rfl⟩

/-- C7 counterexample: a non-eager load of a course with a descendant succeeds
and returns the root, but get_item on the descendant's valid Location raises
ItemNotFoundError: laziness defers construction and get_item does not trigger
it, so get_item does not succeed for every valid descendant Location. -/
theorem lazy_get_item_cex :
    (load_course emptyLazyStore deepCourse).2.toOption.map
        (fun m => m.location.slug) = some (some "root") ∧
      resultErr (get_item (load_course emptyLazyStore deepCourse).1 kidLoc).2 =
        some (.itemNotFound kidLoc) := by decide

/-- C7 (amended): every node constructed during a load is registered at its
Location and stays resolvable through any further processing, in eager and in
lazy mode and also across failures (so eager loading indexes every descendant
immediately, and lazy materialization through get_children registers rather
than loses nodes); concretely, after an eager load of a three-level course the
grandchild Location resolves. With eager False a descendant is simply not
constructed at load time, and get_item on it fails until get_children
materializes it (see the counterexample). -/
theorem eager_lazy_registration :
    (∀ (eager : Bool) (org course : Option String) (x : XmlText) (st : ImportState),
        traceIndexed st → traceIndexed (processXml eager org course x st).1) ∧
      (∀ (eager : Bool) (org course : Option String) (m : XModuleDescriptor)
          (st : ImportState), traceIndexed st →
        traceIndexed (get_children eager org course m st).1) ∧
      (lookupMod (load_course emptyEagerStore deepCourse).1.modules kidLoc).isSome
        = true := by
  refine ⟨fun e o c x st h => (processXml_traceIndexed e o c).1 x st h,
    fun e o c m st h => (processXml_traceIndexed e o c).2 m.childrenSrc st h,
    by decide⟩

/-- Witness for C7 (amended): the invariant applied to an eager load of the
three-level course from the empty import state. -/
theorem eager_lazy_registration_witness :
    traceIndexed (processXml true (some "o") (some "c") deepCourse
      { unnamed_modules := 0, used_slugs := [], modules := [], trace := [] }).1 :=
  eager_lazy_registration.1 true (some "o") (some "c") deepCourse
    { unnamed_modules := 0, used_slugs := [], modules := [], trace := [] }
    (fun m hm => absurd hm (List.not_mem_nil m))

/-- C8: on a fresh allocator (counter zero, empty used set) two sibling html
elements with neither slug nor name attribute receive the synthesized slugs
html_1 and html_2, in that order. -/
theorem unnamed_synthesis_html :
    twoHtmlRun.2.toOption.map (List.map (fun m => m.location.slug)) =
      some [some "html_1", some "html_2"] := by decide

/-- C9: get_item is observation-only: for every store and location it returns
the store unchanged, and its result depends only on the modules index, not on
any other field. -/
theorem get_item_observation_only :
    (∀ (store : XMLModuleStore) (loc : Location), (get_item store loc).1 = store) ∧
      (∀ (s1 s2 : XMLModuleStore) (loc : Location), s1.modules = s2.modules →
        (get_item s1 loc).2 = (get_item s2 loc).2) := by
  refine ⟨fun store loc => rfl, fun s1 s2 loc h => ?_⟩
  simp [get_item, h]

/-- Witness for C9 on two concrete stores differing outside the index. -/
theorem get_item_observation_only_witness :
    (get_item (mkStore true "a" []) dupLoc).1 = mkStore true "a" [] ∧
      (get_item (mkStore true "a" []) dupLoc).2 =
        (get_item (mkStore false "b" []) dupLoc).2 :=
  ⟨get_item_observation_only.1 (mkStore true "a" []) dupLoc,
    get_item_observation_only.2 (mkStore true "a" []) (mkStore false "b" []) dupLoc rfl⟩

/-- C10: an element whose name attribute is present but empty is treated
exactly as an unnamed element (Python truthiness makes the empty string fail
the name test): the allocation coincides with the no-name-attribute case, the
candidate is the synthesized tag_counter slug; concretely a video element with
an empty name gets the slug video_1. -/
theorem empty_name_treated_as_unnamed (tag : String) (n : Nat) (used : List String) :
    allocateSlug tag none (some "") n used = allocateSlug tag none none n used ∧
      (allocateSlug tag none (some "") n []).1 = tag ++ "_" ++ toString (n + 1) ∧
      ((processXml false (some "o") (some "c") (.elem "video" [("name", "")] [])
          { unnamed_modules := 0, used_slugs := [], modules := [], trace := [] }).2.toOption.map
        (fun m => m.location.slug)) = some (some "video_1") :=
  ⟨rfl, rfl, by decide⟩
